import Mathlib

/-!
# Verification of the CouchDB setup / replication-topology planner

A shallow embedding of `src/couchdb/setup-database.ts` from the
`edge-server-tools` repository, together with proofs about the
replication-topology planner (`setupReplicator`), the document
reconciler, the database-existence ensurer, the cleanup aggregator and
the wildcard name matcher (`includesName`).

JavaScript strings are embedded as Lean `String`s (`slice`, `length`,
regex tests on ASCII names are code-unit operations, mirrored below on
`String.data`).  JavaScript objects used as ordered string-keyed maps
(`clusters`, `documents`, `templates`) are embedded as association
lists in key-insertion order with first-match lookup; JavaScript
guarantees unique keys.  JSON values are embedded by the inductive
`Json` type.
-/

/-- JSON values, as stored in CouchDB documents.  Objects keep their
field order (JavaScript object literals are ordered). -/
inductive Json where
  | null : Json
  | bool (b : Bool) : Json
  | num (n : Int) : Json
  | str (s : String) : Json
  | arr (elems : List Json) : Json
  | obj (fields : List (String × Json)) : Json

/-- The empty JSON object `{}`: what survives of a not-found document
after the `_id`/`_rev` bookkeeping fields are stripped. -/
def Json.empty : Json := .obj []

/-- JS `s.slice(0, n)` for `n ≥ 0`: the first `n` code units. -/
def jsSlice (s : String) (n : Nat) : String := ⟨s.data.take n⟩

/-- JS `/\*$/.test(s)`: does the string end in `'*'`? -/
def endsWithStar (s : String) : Bool := s.data.getLast? == some '*'

/-- JS `s.replace(/[/]$/, '')`: drop a single trailing slash, if present. -/
def stripTrailingSlash (s : String) : String :=
  if s.data.getLast? == some '/' then ⟨s.data.dropLast⟩ else s

/-- `includesName` from `setup-database.ts`: true when the list contains
`name`, where a list row ending in `'*'` acts as a prefix wildcard.
Source:
`list.find(row => row === (/\*$/.test(row) ? name.slice(0, row.length - 1) + '*' : name)) != null`. -/
def includesName (list : List String) (name : String) : Bool :=
  (list.find? fun row =>
    row == (if endsWithStar row then jsSlice name (row.length - 1) ++ "*" else name)).isSome

/-- One cluster's entry in the replicator setup document.
Modelled from the spec: the `ReplicatorSetupDocument` type declaration
(`replicator-setup-document.ts`) is not part of the provided source;
§3 "ClusterPolicy" gives its shape:
`{ url, basicAuth?, mode, include?, exclude?, pullFrom?, pushTo? }`. -/
structure ClusterPolicy where
  url : String := ""
  basicAuth : Option String := none
  mode : String := "none"
  «include» : Option (List String) := none
  exclude : Option (List String) := none
  pullFrom : Option (List String) := none
  pushTo : Option (List String) := none
deriving DecidableEq

/-- The `clusters` map of the replicator setup document: a JavaScript
object embedded as an association list in key-insertion order
(`Object.keys` enumerates in that order; keys are unique). -/
abbrev Clusters := List (String × ClusterPolicy)

/-- JS `clusters[name]`: first-match lookup. -/
def lookupCluster (clusters : Clusters) (n : String) : Option ClusterPolicy :=
  (clusters.find? fun p => p.1 == n).map Prod.snd

/-- A replication endpoint: either a bare URL string or
`{ url, headers: { Authorization: ... } }`. -/
inductive ReplicatorEndpoint where
  | url (u : String)
  | withAuth (u : String) (authHeader : String)
deriving DecidableEq

/-- A `_replicator` job document as built by `setupReplicator`.
`create_target_params` is `none` when the field is left `undefined`. -/
structure ReplicatorDocument where
  continuous : Bool
  create_target : Bool
  create_target_params : Option Json := none
  owner : String
  source : ReplicatorEndpoint
  target : ReplicatorEndpoint

/-- `makeEndpoint` from `setupReplicator`:
`` const url = `${row.url.replace(/[/]$/, '')}/${name}` `` wrapped with a
basic-auth header exactly when `row.basicAuth` is declared.  The code
only ever calls this with a name present in `clusters`; the `none`
branch is unreachable there. -/
def makeEndpoint (clusters : Clusters) (dbName clusterName : String) :
    ReplicatorEndpoint :=
  match lookupCluster clusters clusterName with
  | none => .url ("/" ++ dbName)
  | some row =>
    let u := stripTrailingSlash row.url ++ "/" ++ dbName
    match row.basicAuth with
    | none => .url u
    | some auth => .withAuth u ("Basic " ++ auth)

/-- Default for an omitted `pullFrom`:
`Object.keys(clusters).filter(name => mode === 'both' || mode === 'source')`. -/
def defaultPullFrom (clusters : Clusters) : List String :=
  (clusters.map Prod.fst).filter fun n =>
    match lookupCluster clusters n with
    | some row => row.mode == "both" || row.mode == "source"
    | none => false

/-- Default for an omitted `pushTo`:
`Object.keys(clusters).filter(name => mode === 'both' || mode === 'target')`. -/
def defaultPushTo (clusters : Clusters) : List String :=
  (clusters.map Prod.fst).filter fun n =>
    match lookupCluster clusters n with
    | some row => row.mode == "both" || row.mode == "target"
    | none => false

/-- `include: localInclude = ['*']` destructuring default. -/
def resolvedInclude (row : ClusterPolicy) : List String := row.«include».getD ["*"]

/-- `exclude: localExclude = []` destructuring default. -/
def resolvedExclude (row : ClusterPolicy) : List String := row.exclude.getD []

/-- `pullFrom = Object.keys(clusters).filter(...)` destructuring default. -/
def resolvedPullFrom (clusters : Clusters) (row : ClusterPolicy) : List String :=
  row.pullFrom.getD (defaultPullFrom clusters)

/-- `pushTo = Object.keys(clusters).filter(...)` destructuring default. -/
def resolvedPushTo (clusters : Clusters) (row : ClusterPolicy) : List String :=
  row.pushTo.getD (defaultPushTo clusters)

/-- The id `` `${name}.from.${remoteCluster}` `` of a pull job. -/
def pullJobId (dbName remote : String) : String := dbName ++ ".from." ++ remote

/-- The id `` `${name}.to.${remoteCluster}` `` of a push job. -/
def pushJobId (dbName remote : String) : String := dbName ++ ".to." ++ remote

/-- The pull job document written at `"<db>.from.<remote>"`. -/
def pullJob (clusters : Clusters) (dbName user currentCluster remote : String) :
    ReplicatorDocument where
  continuous := true
  create_target := false
  create_target_params := none
  owner := user
  source := makeEndpoint clusters dbName remote
  target := makeEndpoint clusters dbName currentCluster

/-- The push job document written at `"<db>.to.<remote>"`;
`create_target_params` carries the database's creation options. -/
def pushJob (clusters : Clusters) (dbName user : String) (options : Option Json)
    (currentCluster remote : String) : ReplicatorDocument where
  continuous := true
  create_target := true
  create_target_params := options
  owner := user
  source := makeEndpoint clusters dbName currentCluster
  target := makeEndpoint clusters dbName remote

/-- One iteration of `setupReplicator`'s
`for (const remoteCluster of Object.keys(clusters))` loop: the job
documents contributed by one remote cluster, in insertion order
(pull before push).  The four `continue` guards appear in source
order. -/
def emitForRemote (clusters : Clusters) (currentCluster dbName user : String)
    (options : Option Json) (current : ClusterPolicy) (remote : String) :
    List (String × ReplicatorDocument) :=
  if remote = currentCluster then []
  else
    match lookupCluster clusters remote with
    | none => []
    | some rrow =>
      if !includesName (resolvedInclude current) dbName then []
      else if !includesName (resolvedInclude rrow) dbName then []
      else if includesName (resolvedExclude current) dbName then []
      else if includesName (resolvedExclude rrow) dbName then []
      else
        (if includesName (resolvedPullFrom clusters current) remote then
          [(pullJobId dbName remote, pullJob clusters dbName user currentCluster remote)]
        else []) ++
        (if includesName (resolvedPushTo clusters current) remote then
          [(pushJobId dbName remote, pushJob clusters dbName user options currentCluster remote)]
        else [])

/-- The pure core of `setupReplicator`: the `documents` object it
passes to the recursive `setupDatabase` call on `_replicator`, as an
insertion-ordered association list.  Returns `[]` when the current
cluster is missing from the setup document (the early `return`). -/
def setupReplicatorDocs (clusters : Clusters) (currentCluster dbName user : String)
    (options : Option Json) : List (String × ReplicatorDocument) :=
  match lookupCluster clusters currentCluster with
  | none => []
  | some current =>
    (clusters.map Prod.fst).foldl
      (fun acc remote =>
        acc ++ emitForRemote clusters currentCluster dbName user options current remote)
      []

/-! ## Document reconciler (`setupDatabase`'s documents/templates loops) -/

/-- The database's current contents, as seen through `db.get`:
id ↦ (revision, content with the `_id`/`_rev` bookkeeping stripped).
Revisions are abstracted to numbers. -/
abbrev DocStore := List (String × Nat × Json)

/-- `db.get(id)`, with a not-found response mapped to `none`. -/
def storedDoc (store : DocStore) (id : String) : Option (Nat × Json) :=
  (store.find? fun p => p.1 == id).map Prod.snd

/-- The `_rev` of the stored document (`undefined` when not found). -/
def revAt (store : DocStore) (id : String) : Option Nat :=
  (storedDoc store id).map Prod.fst

/-- The `...rest` of `const { _id, _rev, ...rest } = await db.get(id)`:
the stored content, or the empty object when the document was not
found (the catch handler returns `{ _id: id, _rev: undefined }`). -/
def contentAt (store : DocStore) (id : String) : Json :=
  match storedDoc store id with
  | some p => p.2
  | none => Json.empty

/-- One `db.insert({ _id, _rev, ... })` call: the id, the revision
token sent (`none` when the `_rev` field is `undefined`/absent) and
the content written. -/
structure WriteEvent where
  id : String
  rev : Option Nat
  content : Json

/-- The `// Update documents:` loop: for each id of `documents`, fetch
the current document and insert `{ _id, _rev, ...documents[id] }`
exactly when `!matchJson(documents[id], rest)`.  `mj` is the external
`matchJson` deep-equality collaborator (imported from
`../util/match-json`, not part of the provided source). -/
def exactWrites (mj : Json → Json → Bool) (store : DocStore)
    (documents : List (String × Json)) : List WriteEvent :=
  documents.foldl
    (fun acc p =>
      if mj p.2 (contentAt store p.1) then acc
      else acc ++ [⟨p.1, revAt store p.1, p.2⟩])
    []

/-- The `// Create template documents:` loop: for each id of
`templates`, insert `{ _id, ...templates[id] }` (no revision) exactly
when the fetched `_rev` is `null`/`undefined`, i.e. when no document
with that id exists. -/
def templateWrites (store : DocStore)
    (templates : List (String × Json)) : List WriteEvent :=
  templates.foldl
    (fun acc p =>
      if (revAt store p.1).isSome then acc
      else acc ++ [⟨p.1, none, p.2⟩])
    []

/-! ## Existence ensurer (`setupDatabase`'s head) -/

/-- The server's response to `connection.db.get(name)`: the database
info, a not-found error, or some other error (abstracted to a code). -/
inductive GetDbResult where
  | found
  | errNotFound
  | errOther (e : Nat)
deriving DecidableEq

/-- The server's response to `connection.db.create(name, options)`. -/
inductive CreateDbResult where
  | ok
  | errExists
  | errOther (e : Nat)
deriving DecidableEq

/-- What one `setupDatabase` invocation did up to and including the
document-reconciliation loops. -/
structure SetupOutcome where
  /-- `true` when the call took the `if (ignoreMissing) return () => {}`
  early exit, skipping every later step. -/
  earlyReturn : Bool
  /-- How many times `connection.db.create` was invoked. -/
  createCalls : Nat
  /-- The document writes performed (`documents` loop then
  `templates` loop). -/
  writes : List WriteEvent

/-- The existence-ensuring head of `setupDatabase` composed with the
document loops, as a function of the server's responses.  A `db.get`
error other than not-found, or a `db.create` error other than
already-exists, is rethrown (`Except.error`); an already-exists
failure of the single create call is swallowed. -/
def runSetupPhase (mj : Json → Json → Bool) (ignoreMissing : Bool)
    (documents templates : List (String × Json))
    (g : GetDbResult) (c : CreateDbResult) (store : DocStore) :
    Except Nat SetupOutcome :=
  let body : List WriteEvent :=
    exactWrites mj store documents ++ templateWrites store templates
  match g with
  | .found => .ok ⟨false, 0, body⟩
  | .errOther e => .error e
  | .errNotFound =>
    if ignoreMissing then .ok ⟨true, 0, []⟩
    else
      match c with
      | .ok => .ok ⟨false, 1, body⟩
      | .errExists => .ok ⟨false, 1, body⟩
      | .errOther e => .error e

/-! ## Cleanup aggregator -/

/-- The aggregate disposer `() => cleanups.forEach(cleanup => cleanup())`
returned by `setupDatabase`.  The side effect of each collected
cleanup thunk is embedded as a state transformer; one invocation of
the aggregate runs every collected cleanup once, in collection
order. -/
def aggregateDisposer {σ : Type} (cleanups : List (σ → σ)) (s : σ) : σ :=
  cleanups.foldl (fun t f => f t) s

/-- An instrumented cleanup thunk: its only effect is to append its
own label to a log, so invocation counts are observable. -/
def loggingCleanup (label : Nat) : List Nat → List Nat :=
  fun log => log ++ [label]

/-! ## `setupDatabase` control flow (replication branch and recursion) -/

/-- The fields of `DatabaseSetup` that drive control flow and the
planner.  `syncedDocuments`/`onChange` (the watch collaborators) play
no part in the claims below and are omitted.  The `replicatorSetup`
synced document is abstracted to its current `doc.clusters` value. -/
structure DatabaseSetup where
  name : String
  options : Option Json := none
  documents : List (String × Json) := []
  templates : List (String × Json) := []
  ignoreMissing : Bool := false
  /-- Deprecated field, still honored as a fallback. -/
  replicatorSetup : Option Clusters := none

/-- The `SetupDatabaseOptions` fields that drive control flow. -/
structure SetupDatabaseOptions where
  currentCluster : Option String := none
  replicatorSetup : Option Clusters := none
  disableWatching : Bool := false

/-- `const { replicatorSetup = setupInfo.replicatorSetup } = opts`:
the options value wins unless it is `undefined`. -/
def resolveReplicatorSetup (info : DatabaseSetup)
    (opts : SetupDatabaseOptions) : Option Clusters :=
  opts.replicatorSetup <|> info.replicatorSetup

/-- The guard of the replication branch:
`replicatorSetup != null && currentCluster != null && !ignoreMissing`. -/
def replicationActive (info : DatabaseSetup) (opts : SetupDatabaseOptions) : Bool :=
  (resolveReplicatorSetup info opts).isSome &&
    opts.currentCluster.isSome && !info.ignoreMissing

/-- A Couch-document encoding of a replication endpoint, as it is
written into the `_replicator` database. -/
def endpointJson : ReplicatorEndpoint → Json
  | .url u => .str u
  | .withAuth u h => .obj [("url", .str u), ("headers", .obj [("Authorization", .str h)])]

/-- A Couch-document encoding of a replication job document, field
order as in the source literals; an `undefined` `create_target_params`
omits the field. -/
def replicatorDocJson (d : ReplicatorDocument) : Json :=
  .obj ([("continuous", .bool d.continuous), ("create_target", .bool d.create_target)] ++
    (match d.create_target_params with
     | some j => [("create_target_params", j)]
     | none => []) ++
    [("owner", .str d.owner),
     ("source", endpointJson d.source),
     ("target", endpointJson d.target)])

/-- The `setupInfo` argument of the recursive call:
`{ name: '_replicator', documents }`.  Every other field is absent. -/
def innerSetupInfo (docs : List (String × ReplicatorDocument)) : DatabaseSetup where
  name := "_replicator"
  documents := docs.map fun p => (p.1, replicatorDocJson p.2)

/-- The `opts` argument of the recursive call:
`{ ...opts, replicatorSetup: undefined }`. -/
def innerOpts (opts : SetupDatabaseOptions) : SetupDatabaseOptions :=
  { opts with replicatorSetup := none }

/-- The planner's output for a given call, or `[]` when the
replication branch would not run with a usable cluster name. -/
def plannerDocsOf (info : DatabaseSetup) (opts : SetupDatabaseOptions)
    (user : String) : List (String × ReplicatorDocument) :=
  match resolveReplicatorSetup info opts, opts.currentCluster with
  | some clusters, some current =>
    setupReplicatorDocs clusters current info.name user info.options
  | _, _ => []

/-- How many times the replication branch's recursive `setupDatabase`
call nests below a given invocation, computed along the actual
arguments of the recursion, with fuel bounding the unfolding. -/
def setupRecursionDepth : Nat → DatabaseSetup → SetupDatabaseOptions → String → Nat
  | 0, _, _, _ => 0
  | fuel + 1, info, opts, user =>
    if replicationActive info opts then
      1 + setupRecursionDepth fuel
            (innerSetupInfo (plannerDocsOf info opts user)) (innerOpts opts) user
    else 0

/-- Endpoint construction in the specification's words: strip one
trailing slash from the cluster's base URL, append `"/<db>"`, and wrap
with an `Authorization: Basic <credentials>` header exactly when the
cluster declares basic-auth credentials, else a bare URL string. -/
def specEndpoint (row : ClusterPolicy) (db : String) : ReplicatorEndpoint :=
  match row.basicAuth with
  | some credentials =>
    .withAuth (stripTrailingSlash row.url ++ "/" ++ db) ("Basic " ++ credentials)
  | none => .url (stripTrailingSlash row.url ++ "/" ++ db)

/-! ## Concrete topologies used in witnesses and counterexamples -/

/-- The topology used to refute exact-membership semantics for
`pullFrom`: the local cluster pulls from `["e*"]`, and a remote
cluster is named `"eu"`. -/
def startClusters : Clusters :=
  [("a", { url := "https://a", mode := "both",
           «include» := some ["*"], exclude := some [],
           pullFrom := some ["e*"], pushTo := some [] }),
   ("eu", { url := "https://eu", mode := "both" })]

/-- A two-cluster topology where the remote cluster declares basic-auth
credentials and a base URL with a trailing slash. -/
def authClusters : Clusters :=
  [("a", { url := "https://a", mode := "both" }),
   ("b", { url := "https://b/", mode := "both", basicAuth := some "Ym9iOnB3" })]

/-- A topology whose local cluster is named with a trailing `'*'`:
`"b*"` has mode `source`, the only other cluster `"bad"` has mode
`none`. -/
def starNamedClusters : Clusters :=
  [("b*", { url := "https://b", mode := "source" }),
   ("bad", { url := "https://bad", mode := "none" })]

/-! # Theorems -/

/-! ## Lemmas about the wildcard matcher -/

/-- The per-row predicate inside `includesName`'s `list.find`. -/
def rowMatches (row name : String) : Bool :=
  row == (if endsWithStar row then jsSlice name (row.length - 1) ++ "*" else name)


theorem includesName_iff {l : List String} {n : String} :
    includesName l n = true ↔ ∃ row ∈ l, rowMatches row n = true := by
  simp [includesName, rowMatches, List.find?_isSome]

theorem endsWithStar_iff {s : String} :
    endsWithStar s = true ↔ ∃ q, s.data = q ++ ['*'] := by
  simp [endsWithStar, List.getLast?_eq_some_iff]

theorem rowMatches_star {row n : String} (h : endsWithStar row = true) :
    (rowMatches row n = true) ↔ row.data.dropLast <+: n.data := by
  obtain ⟨q, hq⟩ := endsWithStar_iff.mp h
  have hlen : row.length - 1 = q.length := by
    simp [String.length, hq]
  have hdata : ((jsSlice n (row.length - 1) ++ "*").data) =
      n.data.take q.length ++ ['*'] := by
    simp [jsSlice, hlen]
  rw [rowMatches, if_pos h]
  rw [show (row == jsSlice n (row.length - 1) ++ "*") = true ↔
      row = jsSlice n (row.length - 1) ++ "*" from beq_iff_eq ..]
  rw [String.ext_iff, hdata, hq, List.dropLast_concat]
  constructor
  · intro hEq
    exact List.prefix_iff_eq_take.mpr (List.append_cancel_right hEq)
  · intro hpre
    rw [← List.prefix_iff_eq_take.mp hpre]

theorem rowMatches_exact {row n : String} (h : endsWithStar row = false) :
    (rowMatches row n = true) ↔ row = n := by
  simp [rowMatches, h]

/-- Over a list with no wildcard rows, `includesName` is exact
membership. -/
theorem includesName_eq_mem {l : List String} {n : String}
    (h : ∀ r ∈ l, endsWithStar r = false) :
    (includesName l n = true) ↔ n ∈ l := by
  rw [includesName_iff]
  constructor
  · rintro ⟨row, hrow, hm⟩
    rw [(rowMatches_exact (h row hrow)).mp hm] at hrow
    exact hrow
  · intro hn
    exact ⟨n, hn, (rowMatches_exact (h n hn)).mpr rfl⟩

/-- C4: the wildcard matcher.  A pattern ending in `'*'` matches
exactly the names that have the pattern's text before the `'*'` as a
prefix; a pattern without a trailing `'*'` matches only the identical
name; `"user*"` matches `"users"` and `"user_profiles"` but not
`"account_users"`; a list containing `"*"` matches every name. -/
theorem includesName_wildcard_semantics :
    (∀ p n : String, endsWithStar p = true →
      (includesName [p] n = true ↔ p.data.dropLast <+: n.data)) ∧
    (∀ p n : String, endsWithStar p = false →
      (includesName [p] n = true ↔ p = n)) ∧
    (includesName ["user*"] "users" = true ∧
      includesName ["user*"] "user_profiles" = true ∧
      includesName ["user*"] "account_users" = false) ∧
    (∀ (l : List String) (n : String), "*" ∈ l → includesName l n = true) := by
  refine ⟨fun p n h => ?_, fun p n h => ?_, by decide, fun l n h => ?_⟩
  · rw [includesName_iff]
    constructor
    · rintro ⟨row, hrow, hm⟩
      rw [List.mem_singleton] at hrow
      subst hrow
      exact (rowMatches_star h).mp hm
    · intro hpre
      exact ⟨p, List.mem_singleton_self p, (rowMatches_star h).mpr hpre⟩
  · rw [includesName_iff]
    constructor
    · rintro ⟨row, hrow, hm⟩
      rw [List.mem_singleton] at hrow
      subst hrow
      exact (rowMatches_exact h).mp hm
    · intro hpn
      exact ⟨p, List.mem_singleton_self p, (rowMatches_exact h).mpr hpn⟩
  · rw [includesName_iff]
    refine ⟨"*", h, ?_⟩
    rw [rowMatches_star (by decide)]
    exact List.nil_prefix

/-- Witness for C4 at concrete inputs. -/
theorem includesName_wildcard_semantics_witness :
    (includesName ["user*"] "user_db" = true ↔
      "user*".data.dropLast <+: "user_db".data) ∧
    (includesName ["users"] "users_extra" = true ↔
      ("users" : String) = "users_extra") ∧
    includesName ["accounts", "*"] "anything_at_all" = true :=
  ⟨includesName_wildcard_semantics.1 "user*" "user_db" (by decide),
   includesName_wildcard_semantics.2.1 "users" "users_extra" (by decide),
   includesName_wildcard_semantics.2.2.2 ["accounts", "*"] "anything_at_all"
     (by decide)⟩

/-! ## Lemmas about the planner -/

theorem foldl_append_eq_join {β γ : Type} (f : β → List γ) (l : List β)
    (init : List γ) :
    l.foldl (fun acc b => acc ++ f b) init = init ++ (l.map f).flatten := by
  induction l generalizing init with
  | nil => simp
  | cons b bs ih => simp [ih, List.append_assoc]

theorem mem_keys_of_lookup {clusters : Clusters} {n : String} {row : ClusterPolicy}
    (h : lookupCluster clusters n = some row) : n ∈ clusters.map Prod.fst := by
  unfold lookupCluster at h
  rw [Option.map_eq_some'] at h
  obtain ⟨p, hp, -⟩ := h
  have hmem := List.mem_of_find?_eq_some hp
  have hn := List.find?_some hp
  rw [beq_iff_eq] at hn
  subst hn
  exact List.mem_map_of_mem Prod.fst hmem

theorem mem_setupReplicatorDocs {clusters : Clusters}
    {cc db user : String} {opts : Option Json} {current : ClusterPolicy}
    {x : String × ReplicatorDocument}
    (hcur : lookupCluster clusters cc = some current) :
    x ∈ setupReplicatorDocs clusters cc db user opts ↔
      ∃ remote ∈ clusters.map Prod.fst,
        x ∈ emitForRemote clusters cc db user opts current remote := by
  simp only [setupReplicatorDocs, hcur]
  rw [foldl_append_eq_join]
  simp [List.mem_flatten]

theorem mem_emitForRemote {clusters : Clusters} {cc db user : String}
    {opts : Option Json} {current : ClusterPolicy} {remote : String}
    {x : String × ReplicatorDocument} :
    x ∈ emitForRemote clusters cc db user opts current remote ↔
      remote ≠ cc ∧ ∃ rrow,
        lookupCluster clusters remote = some rrow ∧
        includesName (resolvedInclude current) db = true ∧
        includesName (resolvedInclude rrow) db = true ∧
        includesName (resolvedExclude current) db = false ∧
        includesName (resolvedExclude rrow) db = false ∧
        ((includesName (resolvedPullFrom clusters current) remote = true ∧
            x = (pullJobId db remote, pullJob clusters db user cc remote)) ∨
          (includesName (resolvedPushTo clusters current) remote = true ∧
            x = (pushJobId db remote, pushJob clusters db user opts cc remote))) := by
  unfold emitForRemote
  by_cases hrc : remote = cc
  · simp [hrc]
  · cases hlk : lookupCluster clusters remote with
    | none => simp [hrc, hlk]
    | some rrow =>
      cases h1 : includesName (resolvedInclude current) db <;>
        cases h2 : includesName (resolvedInclude rrow) db <;>
          cases h3 : includesName (resolvedExclude current) db <;>
            cases h4 : includesName (resolvedExclude rrow) db <;>
              cases h5 : includesName (resolvedPullFrom clusters current) remote <;>
                cases h6 : includesName (resolvedPushTo clusters current) remote <;>
                  simp [hrc, hlk, h1, h2, h3, h4, h5, h6]

theorem pullJobId_inj {db r r' : String} :
    pullJobId db r = pullJobId db r' ↔ r = r' := by
  constructor
  · intro h
    rw [pullJobId, pullJobId, String.ext_iff] at h
    simp only [String.data_append, List.append_assoc] at h
    have := List.append_cancel_left (List.append_cancel_left h)
    exact String.ext this
  · intro h
    rw [h]

theorem pushJobId_inj {db r r' : String} :
    pushJobId db r = pushJobId db r' ↔ r = r' := by
  constructor
  · intro h
    rw [pushJobId, pushJobId, String.ext_iff] at h
    simp only [String.data_append, List.append_assoc] at h
    have := List.append_cancel_left (List.append_cancel_left h)
    exact String.ext this
  · intro h
    rw [h]

theorem pullJobId_ne_pushJobId {db r r' : String} :
    pullJobId db r ≠ pushJobId db r' := by
  intro h
  rw [pullJobId, pushJobId, String.ext_iff] at h
  simp only [String.data_append, List.append_assoc] at h
  have h2 := List.append_cancel_left h
  simp at h2

theorem setupReplicatorDocs_none {clusters : Clusters} {cc db user : String}
    {opts : Option Json} (h : lookupCluster clusters cc = none) :
    setupReplicatorDocs clusters cc db user opts = [] := by
  simp [setupReplicatorDocs, h]

/-- Membership among the emitted job ids, in terms of the resolved
local policy. -/
theorem mem_ids_iff {clusters : Clusters} {cc db user : String}
    {opts : Option Json} {current : ClusterPolicy} {id : String}
    (hcur : lookupCluster clusters cc = some current) :
    id ∈ (setupReplicatorDocs clusters cc db user opts).map Prod.fst ↔
      ∃ remote rrow,
        lookupCluster clusters remote = some rrow ∧ remote ≠ cc ∧
        includesName (resolvedInclude current) db = true ∧
        includesName (resolvedInclude rrow) db = true ∧
        includesName (resolvedExclude current) db = false ∧
        includesName (resolvedExclude rrow) db = false ∧
        ((includesName (resolvedPullFrom clusters current) remote = true ∧
            id = pullJobId db remote) ∨
          (includesName (resolvedPushTo clusters current) remote = true ∧
            id = pushJobId db remote)) := by
  rw [List.mem_map]
  constructor
  · rintro ⟨x, hx, rfl⟩
    rw [mem_setupReplicatorDocs hcur] at hx
    obtain ⟨remote, -, he⟩ := hx
    rw [mem_emitForRemote] at he
    obtain ⟨hne, rrow, hlk, h1, h2, h3, h4, hpp⟩ := he
    refine ⟨remote, rrow, hlk, hne, h1, h2, h3, h4, ?_⟩
    rcases hpp with ⟨hp, rfl⟩ | ⟨hp, rfl⟩
    · exact .inl ⟨hp, rfl⟩
    · exact .inr ⟨hp, rfl⟩
  · rintro ⟨remote, rrow, hlk, hne, h1, h2, h3, h4, hpp⟩
    rcases hpp with ⟨hp, rfl⟩ | ⟨hp, rfl⟩
    · refine ⟨(pullJobId db remote, pullJob clusters db user cc remote), ?_, rfl⟩
      rw [mem_setupReplicatorDocs hcur]
      exact ⟨remote, mem_keys_of_lookup hlk,
        mem_emitForRemote.mpr ⟨hne, rrow, hlk, h1, h2, h3, h4, .inl ⟨hp, rfl⟩⟩⟩
    · refine ⟨(pushJobId db remote, pushJob clusters db user opts cc remote), ?_, rfl⟩
      rw [mem_setupReplicatorDocs hcur]
      exact ⟨remote, mem_keys_of_lookup hlk,
        mem_emitForRemote.mpr ⟨hne, rrow, hlk, h1, h2, h3, h4, .inr ⟨hp, rfl⟩⟩⟩

/-- The planner never emits an id naming the current cluster as the
remote side. -/
theorem self_ids_not_mem (clusters : Clusters) (cc db user : String)
    (opts : Option Json) :
    pullJobId db cc ∉ (setupReplicatorDocs clusters cc db user opts).map Prod.fst ∧
    pushJobId db cc ∉ (setupReplicatorDocs clusters cc db user opts).map Prod.fst := by
  cases hcur : lookupCluster clusters cc with
  | none => rw [setupReplicatorDocs_none hcur]; simp
  | some current =>
    constructor
    · intro h
      rw [mem_ids_iff hcur] at h
      obtain ⟨remote, rrow, -, hne, -, -, -, -, hpp⟩ := h
      rcases hpp with ⟨-, hid⟩ | ⟨-, hid⟩
      · exact hne (pullJobId_inj.mp hid.symm)
      · exact pullJobId_ne_pushJobId hid
    · intro h
      rw [mem_ids_iff hcur] at h
      obtain ⟨remote, rrow, -, hne, -, -, -, -, hpp⟩ := h
      rcases hpp with ⟨-, hid⟩ | ⟨-, hid⟩
      · exact pullJobId_ne_pushJobId hid.symm
      · exact hne (pushJobId_inj.mp hid.symm)

/-- C10: for every setup document and local policy, the planner never
emits a job document whose remote cluster is the current cluster
itself — even when `pullFrom` or `pushTo` explicitly lists the current
cluster's name or a wildcard matching it — so no self-replication job
id `"<db>.from.<current>"` or `"<db>.to.<current>"` is ever written. -/
theorem no_self_replication_jobs (clusters : Clusters) (cc db user : String)
    (opts : Option Json) :
    pullJobId db cc ∉ (setupReplicatorDocs clusters cc db user opts).map Prod.fst ∧
    pushJobId db cc ∉ (setupReplicatorDocs clusters cc db user opts).map Prod.fst :=
  self_ids_not_mem clusters cc db user opts

/-- C1 (amended): with the local policy's four lists given explicitly,
an id is emitted iff it is `"<db>.from.<R>"` (resp. `"<db>.to.<R>"`)
for a remote cluster `R ≠ current` where the database name matches
local-include AND remote-include AND NOT local-exclude AND NOT
remote-exclude, and `R` matches `pullFrom` (resp. `pushTo`) under the
same trailing-`'*'` wildcard matcher (`includesName`), not under exact
list membership; in particular a locally excluded database name yields
zero jobs. -/
theorem replication_job_ids_exact (clusters : Clusters) (cc db user : String)
    (opts : Option Json) (current : ClusterPolicy)
    (localInclude localExclude pullFrom pushTo : List String)
    (hcur : lookupCluster clusters cc = some current)
    (hinc : current.«include» = some localInclude)
    (hexc : current.exclude = some localExclude)
    (hpf : current.pullFrom = some pullFrom)
    (hpt : current.pushTo = some pushTo) :
    (∀ id, id ∈ (setupReplicatorDocs clusters cc db user opts).map Prod.fst ↔
      ∃ remote rrow,
        lookupCluster clusters remote = some rrow ∧ remote ≠ cc ∧
        includesName localInclude db = true ∧
        includesName (resolvedInclude rrow) db = true ∧
        includesName localExclude db = false ∧
        includesName (resolvedExclude rrow) db = false ∧
        ((includesName pullFrom remote = true ∧ id = pullJobId db remote) ∨
          (includesName pushTo remote = true ∧ id = pushJobId db remote))) ∧
    (includesName localExclude db = true →
      setupReplicatorDocs clusters cc db user opts = []) := by
  have hresInc : resolvedInclude current = localInclude := by
    rw [resolvedInclude, hinc, Option.getD_some]
  have hresExc : resolvedExclude current = localExclude := by
    rw [resolvedExclude, hexc, Option.getD_some]
  have hresPf : resolvedPullFrom clusters current = pullFrom := by
    rw [resolvedPullFrom, hpf, Option.getD_some]
  have hresPt : resolvedPushTo clusters current = pushTo := by
    rw [resolvedPushTo, hpt, Option.getD_some]
  constructor
  · intro id
    rw [mem_ids_iff hcur, hresInc, hresExc, hresPf, hresPt]
  · intro hx
    rw [List.eq_nil_iff_forall_not_mem]
    intro x hmem
    have : x ∈ setupReplicatorDocs clusters cc db user opts := hmem
    rw [mem_setupReplicatorDocs hcur] at this
    obtain ⟨remote, -, he⟩ := this
    rw [mem_emitForRemote] at he
    obtain ⟨-, rrow, -, -, -, h3, -, -⟩ := he
    rw [hresExc, hx] at h3
    cases h3

/-- Counterexample to C1 as stated: `"eu"` is not an element of the
`pullFrom` list `["e*"]`, so under exact set intersection no job may
be emitted for database `"users"`, yet the planner emits the pull job
`"users.from.eu"` (membership is wildcard matching, not set
membership). -/
theorem replication_job_ids_exact_counterexample :
    (setupReplicatorDocs startClusters "a" "users" "admin" none).map Prod.fst
        = [pullJobId "users" "eu"] ∧
    "eu" ∉ (["e*"] : List String) ∧
    includesName ["e*"] "eu" = true := by
  refine ⟨?_, by decide, by decide⟩
  rfl

/-- Witness for C1's amended theorem at the concrete topology
`startClusters`: instantiating every hypothesis and evaluating both
sides at the emitted id and at db `"users"`. -/
theorem replication_job_ids_exact_witness :
    (pullJobId "users" "eu" ∈
        (setupReplicatorDocs startClusters "a" "users" "admin" none).map Prod.fst ↔
      ∃ remote rrow,
        lookupCluster startClusters remote = some rrow ∧ remote ≠ "a" ∧
        includesName ["*"] "users" = true ∧
        includesName (resolvedInclude rrow) "users" = true ∧
        includesName [] "users" = false ∧
        includesName (resolvedExclude rrow) "users" = false ∧
        ((includesName ["e*"] remote = true ∧
            pullJobId "users" "eu" = pullJobId "users" remote) ∨
          (includesName [] remote = true ∧
            pullJobId "users" "eu" = pushJobId "users" remote))) :=
  (replication_job_ids_exact startClusters "a" "users" "admin" none
    { url := "https://a", mode := "both", «include» := some ["*"], exclude := some [],
      pullFrom := some ["e*"], pushTo := some [] }
    ["*"] [] ["e*"] []
    rfl rfl rfl rfl rfl).1 (pullJobId "users" "eu")

/-- C9: membership of a remote cluster in `pullFrom`/`pushTo` is
decided by the same trailing-`'*'` prefix-wildcard matcher used for
include/exclude patterns: for an entry ending in `'*'`, every remote
cluster the planner considers (distinct from the current cluster and
passing the four-way name filter) whose name starts with the entry's
prefix receives the corresponding pull/push job. -/
theorem wildcard_pull_push_membership (clusters : Clusters)
    (cc db user remote entry : String) (opts : Option Json)
    (current rrow : ClusterPolicy)
    (hcur : lookupCluster clusters cc = some current)
    (hrk : lookupCluster clusters remote = some rrow)
    (hne : remote ≠ cc)
    (h1 : includesName (resolvedInclude current) db = true)
    (h2 : includesName (resolvedInclude rrow) db = true)
    (h3 : includesName (resolvedExclude current) db = false)
    (h4 : includesName (resolvedExclude rrow) db = false)
    (hstar : endsWithStar entry = true)
    (hpre : entry.data.dropLast <+: remote.data) :
    (entry ∈ resolvedPullFrom clusters current →
      pullJobId db remote ∈
        (setupReplicatorDocs clusters cc db user opts).map Prod.fst) ∧
    (entry ∈ resolvedPushTo clusters current →
      pushJobId db remote ∈
        (setupReplicatorDocs clusters cc db user opts).map Prod.fst) := by
  have hmatch : rowMatches entry remote = true := (rowMatches_star hstar).mpr hpre
  constructor
  · intro hentry
    rw [mem_ids_iff hcur]
    exact ⟨remote, rrow, hrk, hne, h1, h2, h3, h4,
      .inl ⟨includesName_iff.mpr ⟨entry, hentry, hmatch⟩, rfl⟩⟩
  · intro hentry
    rw [mem_ids_iff hcur]
    exact ⟨remote, rrow, hrk, hne, h1, h2, h3, h4,
      .inr ⟨includesName_iff.mpr ⟨entry, hentry, hmatch⟩, rfl⟩⟩

/-- Witness for C9 at `startClusters`: the entry `"e*"` of `pullFrom`
ends in `'*'` and its prefix `"e"` starts the remote name `"eu"`, so
the pull job id `"users.from.eu"` is emitted. -/
theorem wildcard_pull_push_membership_witness :
    pullJobId "users" "eu" ∈
      (setupReplicatorDocs startClusters "a" "users" "admin" none).map Prod.fst :=
  (wildcard_pull_push_membership startClusters "a" "users" "admin" "eu" "e*" none
    { url := "https://a", mode := "both", «include» := some ["*"],
      exclude := some [], pullFrom := some ["e*"], pushTo := some [] }
    { url := "https://eu", mode := "both" }
    rfl rfl (by decide) (by decide) (by decide) (by decide) (by decide)
    (by decide) (by decide)).1 (by decide)

/-- The code's `makeEndpoint` agrees with the specification's endpoint
construction on every cluster actually present in the setup document. -/
theorem makeEndpoint_eq_spec {clusters : Clusters} {n db : String}
    {row : ClusterPolicy} (h : lookupCluster clusters n = some row) :
    makeEndpoint clusters db n = specEndpoint row db := by
  simp only [makeEndpoint, h]
  cases hb : row.basicAuth <;> simp [specEndpoint, hb]

/-- C5: every emitted pull job `"<db>.from.<R>"` has
source = endpoint(R), target = endpoint(current), `continuous: true`,
`create_target: false` and no `create_target_params`; every emitted
push job `"<db>.to.<R>"` has source = endpoint(current),
target = endpoint(R), `continuous: true`, `create_target: true` and
`create_target_params` equal to the database's creation options; with
endpoints built as `specEndpoint` describes. -/
theorem replication_job_document_shape (clusters : Clusters)
    (cc db user : String) (opts : Option Json) (current : ClusterPolicy)
    (id : String) (doc : ReplicatorDocument)
    (hcur : lookupCluster clusters cc = some current)
    (hmem : (id, doc) ∈ setupReplicatorDocs clusters cc db user opts) :
    ∃ remote rrow, lookupCluster clusters remote = some rrow ∧ remote ≠ cc ∧
      ((id = pullJobId db remote ∧
          doc = { continuous := true, create_target := false,
                  create_target_params := none, owner := user,
                  source := specEndpoint rrow db,
                  target := specEndpoint current db }) ∨
        (id = pushJobId db remote ∧
          doc = { continuous := true, create_target := true,
                  create_target_params := opts, owner := user,
                  source := specEndpoint current db,
                  target := specEndpoint rrow db })) := by
  rw [mem_setupReplicatorDocs hcur] at hmem
  obtain ⟨remote, -, he⟩ := hmem
  rw [mem_emitForRemote] at he
  obtain ⟨hne, rrow, hlk, -, -, -, -, hpp⟩ := he
  refine ⟨remote, rrow, hlk, hne, ?_⟩
  rcases hpp with ⟨-, hx⟩ | ⟨-, hx⟩ <;> injection hx with hid hdoc
  · refine .inl ⟨hid, ?_⟩
    rw [hdoc]
    unfold pullJob
    rw [makeEndpoint_eq_spec hlk, makeEndpoint_eq_spec hcur]
  · refine .inr ⟨hid, ?_⟩
    rw [hdoc]
    unfold pushJob
    rw [makeEndpoint_eq_spec hlk, makeEndpoint_eq_spec hcur]

/-- Witness for C5 at `authClusters`: the emitted pull job
`"orders.from.b"` has the claimed shape, with the remote endpoint
auth-wrapped and its trailing slash stripped. -/
theorem replication_job_document_shape_witness :
    ∃ remote rrow, lookupCluster authClusters remote = some rrow ∧ remote ≠ "a" ∧
      ((pullJobId "orders" "b" = pullJobId "orders" remote ∧
          pullJob authClusters "orders" "admin" "a" "b" =
            { continuous := true, create_target := false,
              create_target_params := none, owner := "admin",
              source := specEndpoint rrow "orders",
              target := specEndpoint { url := "https://a", mode := "both" } "orders" }) ∨
        (pullJobId "orders" "b" = pushJobId "orders" remote ∧
          pullJob authClusters "orders" "admin" "a" "b" =
            { continuous := true, create_target := true,
              create_target_params := none, owner := "admin",
              source := specEndpoint { url := "https://a", mode := "both" } "orders",
              target := specEndpoint rrow "orders" })) := by
  have hmem : (pullJobId "orders" "b", pullJob authClusters "orders" "admin" "a" "b") ∈
      setupReplicatorDocs authClusters "a" "orders" "admin" none := by
    have h : setupReplicatorDocs authClusters "a" "orders" "admin" none =
        [(pullJobId "orders" "b", pullJob authClusters "orders" "admin" "a" "b"),
          (pushJobId "orders" "b", pushJob authClusters "orders" "admin" none "a" "b")] := rfl
    rw [h]
    exact List.mem_cons_self _ _
  exact replication_job_document_shape authClusters "a" "orders" "admin" none
    { url := "https://a", mode := "both" }
    (pullJobId "orders" "b") (pullJob authClusters "orders" "admin" "a" "b")
    rfl hmem

/-- When no cluster name ends in `'*'`, matching a remote against the
defaulted `pullFrom` list is exactly the mode test. -/
theorem includesName_defaultPullFrom {clusters : Clusters} {remote : String}
    {rrow : ClusterPolicy}
    (hstar : ∀ n ∈ clusters.map Prod.fst, endsWithStar n = false)
    (hrk : lookupCluster clusters remote = some rrow) :
    includesName (defaultPullFrom clusters) remote = true ↔
      (rrow.mode = "both" ∨ rrow.mode = "source") := by
  have hsub : ∀ r ∈ defaultPullFrom clusters, endsWithStar r = false := by
    intro r hr
    rw [defaultPullFrom, List.mem_filter] at hr
    exact hstar r hr.1
  rw [includesName_eq_mem hsub, defaultPullFrom, List.mem_filter]
  constructor
  · rintro ⟨-, hp⟩
    rw [hrk] at hp
    simpa using hp
  · intro hm
    refine ⟨mem_keys_of_lookup hrk, ?_⟩
    rw [hrk]
    simpa using hm

/-- When no cluster name ends in `'*'`, matching a remote against the
defaulted `pushTo` list is exactly the mode test. -/
theorem includesName_defaultPushTo {clusters : Clusters} {remote : String}
    {rrow : ClusterPolicy}
    (hstar : ∀ n ∈ clusters.map Prod.fst, endsWithStar n = false)
    (hrk : lookupCluster clusters remote = some rrow) :
    includesName (defaultPushTo clusters) remote = true ↔
      (rrow.mode = "both" ∨ rrow.mode = "target") := by
  have hsub : ∀ r ∈ defaultPushTo clusters, endsWithStar r = false := by
    intro r hr
    rw [defaultPushTo, List.mem_filter] at hr
    exact hstar r hr.1
  rw [includesName_eq_mem hsub, defaultPushTo, List.mem_filter]
  constructor
  · rintro ⟨-, hp⟩
    rw [hrk] at hp
    simpa using hp
  · intro hm
    refine ⟨mem_keys_of_lookup hrk, ?_⟩
    rw [hrk]
    simpa using hm

/-- C3 (amended): when the local cluster omits `pullFrom` (resp.
`pushTo`) and no cluster name ends in `'*'`, the emitted pull (push)
jobs are exactly those for remote clusters, distinct from the current
one, whose mode is `"source"`/`"both"` (resp. `"target"`/`"both"`) and
which pass the include/exclude filter; and no job is ever emitted
whose remote cluster is the local cluster.  (Without the no-`'*'`
hypothesis the defaulted list, which also contains the local cluster's
own name when its mode matches, is consulted through the wildcard
matcher, and extra jobs can be emitted — see the counterexample.) -/
theorem default_pull_push_semantics (clusters : Clusters) (cc db user : String)
    (opts : Option Json) (current : ClusterPolicy)
    (hcur : lookupCluster clusters cc = some current)
    (hpf : current.pullFrom = none) (hpt : current.pushTo = none)
    (hstar : ∀ n ∈ clusters.map Prod.fst, endsWithStar n = false) :
    (∀ id, id ∈ (setupReplicatorDocs clusters cc db user opts).map Prod.fst ↔
      ∃ remote rrow,
        lookupCluster clusters remote = some rrow ∧ remote ≠ cc ∧
        includesName (resolvedInclude current) db = true ∧
        includesName (resolvedInclude rrow) db = true ∧
        includesName (resolvedExclude current) db = false ∧
        includesName (resolvedExclude rrow) db = false ∧
        (((rrow.mode = "both" ∨ rrow.mode = "source") ∧ id = pullJobId db remote) ∨
          ((rrow.mode = "both" ∨ rrow.mode = "target") ∧ id = pushJobId db remote))) ∧
    pullJobId db cc ∉ (setupReplicatorDocs clusters cc db user opts).map Prod.fst ∧
    pushJobId db cc ∉ (setupReplicatorDocs clusters cc db user opts).map Prod.fst := by
  refine ⟨?_, (self_ids_not_mem clusters cc db user opts).1,
    (self_ids_not_mem clusters cc db user opts).2⟩
  have hrespf : resolvedPullFrom clusters current = defaultPullFrom clusters := by
    rw [resolvedPullFrom, hpf]; rfl
  have hrespt : resolvedPushTo clusters current = defaultPushTo clusters := by
    rw [resolvedPushTo, hpt]; rfl
  intro id
  rw [mem_ids_iff hcur, hrespf, hrespt]
  constructor
  · rintro ⟨remote, rrow, hrk, hne, h1, h2, h3, h4, hpp⟩
    refine ⟨remote, rrow, hrk, hne, h1, h2, h3, h4, ?_⟩
    rcases hpp with ⟨hp, rfl⟩ | ⟨hp, rfl⟩
    · exact .inl ⟨(includesName_defaultPullFrom hstar hrk).mp hp, rfl⟩
    · exact .inr ⟨(includesName_defaultPushTo hstar hrk).mp hp, rfl⟩
  · rintro ⟨remote, rrow, hrk, hne, h1, h2, h3, h4, hpp⟩
    refine ⟨remote, rrow, hrk, hne, h1, h2, h3, h4, ?_⟩
    rcases hpp with ⟨hp, rfl⟩ | ⟨hp, rfl⟩
    · exact .inl ⟨(includesName_defaultPullFrom hstar hrk).mpr hp, rfl⟩
    · exact .inr ⟨(includesName_defaultPushTo hstar hrk).mpr hp, rfl⟩

/-- Counterexample to C3 as stated: with `pullFrom` omitted on the
local cluster `"b*"`, the claim's reading (pull from clusters of mode
`source`/`both` other than the local one — here none, since `"bad"`
has mode `"none"`) predicts zero jobs, yet the planner emits the pull
job `"db.from.bad"`: the defaulted list `["b*"]` contains the local
cluster's own name, and it matches `"bad"` as a wildcard. -/
theorem default_pull_push_semantics_counterexample :
    (setupReplicatorDocs starNamedClusters "b*" "db" "admin" none).map Prod.fst
        = [pullJobId "db" "bad"] ∧
    starNamedClusters.map Prod.fst = ["b*", "bad"] ∧
    (lookupCluster starNamedClusters "bad").map ClusterPolicy.mode = some "none" ∧
    (lookupCluster starNamedClusters "b*").map ClusterPolicy.pullFrom = some none :=
  ⟨rfl, rfl, rfl, rfl⟩

/-- Witness for C3's amended theorem at `authClusters` (two clusters
of mode `both`, no wildcard names, `pullFrom`/`pushTo` omitted),
evaluated at the emitted id `"orders.from.b"`. -/
theorem default_pull_push_semantics_witness :
    (pullJobId "orders" "b" ∈
        (setupReplicatorDocs authClusters "a" "orders" "admin" none).map Prod.fst ↔
      ∃ remote rrow,
        lookupCluster authClusters remote = some rrow ∧ remote ≠ "a" ∧
        includesName (resolvedInclude { url := "https://a", mode := "both" })
          "orders" = true ∧
        includesName (resolvedInclude rrow) "orders" = true ∧
        includesName (resolvedExclude { url := "https://a", mode := "both" })
          "orders" = false ∧
        includesName (resolvedExclude rrow) "orders" = false ∧
        (((rrow.mode = "both" ∨ rrow.mode = "source") ∧
            pullJobId "orders" "b" = pullJobId "orders" remote) ∨
          ((rrow.mode = "both" ∨ rrow.mode = "target") ∧
            pullJobId "orders" "b" = pushJobId "orders" remote))) :=
  (default_pull_push_semantics authClusters "a" "orders" "admin" none
    { url := "https://a", mode := "both" } rfl rfl rfl (by decide)).1
    (pullJobId "orders" "b")

/-! ## Lemmas about the document reconciler -/

theorem foldl_ite_append {β γ : Type} (c : β → Bool) (g : β → γ) (l : List β)
    (init : List γ) :
    l.foldl (fun acc b => if c b then acc else acc ++ [g b]) init
      = init ++ ((l.filter fun b => !c b).map g) := by
  induction l generalizing init with
  | nil => simp
  | cons b bs ih => cases hb : c b <;> simp [hb, ih, List.append_assoc]

theorem exactWrites_eq (mj : Json → Json → Bool) (store : DocStore)
    (documents : List (String × Json)) :
    exactWrites mj store documents =
      ((documents.filter fun p => !mj p.2 (contentAt store p.1)).map
        fun p => ⟨p.1, revAt store p.1, p.2⟩) := by
  rw [exactWrites,
    foldl_ite_append (fun p => mj p.2 (contentAt store p.1))
      (fun p => (⟨p.1, revAt store p.1, p.2⟩ : WriteEvent)) documents []]
  rfl

theorem templateWrites_eq (store : DocStore)
    (templates : List (String × Json)) :
    templateWrites store templates =
      ((templates.filter fun p => !(revAt store p.1).isSome).map
        fun p => ⟨p.1, none, p.2⟩) := by
  rw [templateWrites,
    foldl_ite_append (fun p => (revAt store p.1).isSome)
      (fun p => (⟨p.1, none, p.2⟩ : WriteEvent)) templates []]
  rfl

/-- C6: an exact document is written (with the stored revision token)
iff its stored content — the empty object for a not-found response —
does not `matchJson`-equal the desired content; a template document is
written iff no document with that id exists, so an existing template
document is never overwritten, whatever its content. -/
theorem reconcile_write_semantics (mj : Json → Json → Bool) (store : DocStore)
    (documents templates : List (String × Json)) (id : String) (d : Json) :
    (∀ r c, storedDoc store id = some (r, c) →
      (WriteEvent.mk id (some r) d ∈ exactWrites mj store documents ↔
        (id, d) ∈ documents ∧ mj d c = false)) ∧
    (storedDoc store id = none →
      (WriteEvent.mk id none d ∈ exactWrites mj store documents ↔
        (id, d) ∈ documents ∧ mj d Json.empty = false)) ∧
    (storedDoc store id = none →
      (WriteEvent.mk id none d ∈ templateWrites store templates ↔
        (id, d) ∈ templates)) ∧
    ((storedDoc store id).isSome = true →
      ∀ w ∈ templateWrites store templates, w.id ≠ id) := by
  refine ⟨fun r c hst => ?_, fun hst => ?_, fun hst => ?_, fun hst => ?_⟩
  · rw [exactWrites_eq]
    simp only [List.mem_map, List.mem_filter, WriteEvent.mk.injEq]
    constructor
    · rintro ⟨p, ⟨hpmem, hpc⟩, hpid, -, hpd⟩
      subst hpid
      subst hpd
      rw [contentAt, hst] at hpc
      simp at hpc
      exact ⟨hpmem, hpc⟩
    · rintro ⟨hmem, hmj⟩
      refine ⟨(id, d), ⟨hmem, ?_⟩, rfl, ?_, rfl⟩
      · rw [contentAt, hst]
        simp [hmj]
      · simp [revAt, hst]
  · rw [exactWrites_eq]
    simp only [List.mem_map, List.mem_filter, WriteEvent.mk.injEq]
    constructor
    · rintro ⟨p, ⟨hpmem, hpc⟩, hpid, -, hpd⟩
      subst hpid
      subst hpd
      rw [contentAt, hst] at hpc
      simp at hpc
      exact ⟨hpmem, hpc⟩
    · rintro ⟨hmem, hmj⟩
      refine ⟨(id, d), ⟨hmem, ?_⟩, rfl, ?_, rfl⟩
      · rw [contentAt, hst]
        simp [hmj]
      · simp [revAt, hst]
  · rw [templateWrites_eq]
    constructor
    · intro hmem
      rw [List.mem_map] at hmem
      obtain ⟨p, hpf, heq⟩ := hmem
      rw [List.mem_filter] at hpf
      rw [WriteEvent.mk.injEq] at heq
      obtain ⟨h1, -, h3⟩ := heq
      rw [← h1, ← h3]
      exact hpf.1
    · intro hmem
      rw [List.mem_map]
      refine ⟨(id, d), ?_, rfl⟩
      rw [List.mem_filter]
      refine ⟨hmem, ?_⟩
      simp [revAt, hst]
  · rw [templateWrites_eq]
    rintro w hw
    rw [List.mem_map] at hw
    obtain ⟨p, hpf, rfl⟩ := hw
    rw [List.mem_filter] at hpf
    intro hpid
    have hpid' : p.1 = id := hpid
    rw [hpid'] at hpf
    obtain ⟨-, hcond⟩ := hpf
    rw [revAt] at hcond
    cases hso : storedDoc store id with
    | none =>
      rw [hso] at hst
      cases hst
    | some v =>
      rw [hso] at hcond
      simp at hcond

/-- Witness for C6: with stored document `x = {a: 1}` at revision 3,
the exact document `{a: 2}` for id `x` is written iff it mismatches,
and no template write ever touches the existing id `x`. -/
theorem reconcile_write_semantics_witness :
    (WriteEvent.mk "x" (some 3) (Json.obj [("a", Json.num 2)]) ∈
        exactWrites (fun _ _ => false)
          [("x", (3, Json.obj [("a", Json.num 1)]))]
          [("x", Json.obj [("a", Json.num 2)])] ↔
      ("x", Json.obj [("a", Json.num 2)]) ∈
          [("x", Json.obj [("a", Json.num 2)])] ∧
        (fun (_ _ : Json) => false) (Json.obj [("a", Json.num 2)])
            (Json.obj [("a", Json.num 1)]) = false) ∧
    (∀ w ∈ templateWrites [("x", (3, Json.obj [("a", Json.num 1)]))]
        [("x", Json.obj [("t", Json.null)])], w.id ≠ "x") :=
  ⟨(reconcile_write_semantics (fun _ _ => false)
      [("x", (3, Json.obj [("a", Json.num 1)]))]
      [("x", Json.obj [("a", Json.num 2)])]
      [("x", Json.obj [("t", Json.null)])] "x"
      (Json.obj [("a", Json.num 2)])).1 3 (Json.obj [("a", Json.num 1)]) rfl,
   (reconcile_write_semantics (fun _ _ => false)
      [("x", (3, Json.obj [("a", Json.num 1)]))]
      [("x", Json.obj [("a", Json.num 2)])]
      [("x", Json.obj [("t", Json.null)])] "x"
      (Json.obj [("a", Json.num 2)])).2.2.2 rfl⟩

/-- C7: when the database is absent, `ignoreMissing` short-circuits
with an early no-op return — no create call, no document writes;
otherwise exactly one create call is issued, whose already-exists
failure is swallowed (the reconcile still completes, performing the
document writes), while any other failure of the existence check or of
the create call propagates and aborts the call. -/
theorem ensure_database_semantics (mj : Json → Json → Bool)
    (documents templates : List (String × Json)) (store : DocStore)
    (c : CreateDbResult) :
    (runSetupPhase mj true documents templates .errNotFound c store =
      .ok ⟨true, 0, []⟩) ∧
    (∀ ignoreMissing,
      runSetupPhase mj ignoreMissing documents templates .found c store =
        .ok ⟨false, 0,
          exactWrites mj store documents ++ templateWrites store templates⟩) ∧
    ((c = .ok ∨ c = .errExists) →
      runSetupPhase mj false documents templates .errNotFound c store =
        .ok ⟨false, 1,
          exactWrites mj store documents ++ templateWrites store templates⟩) ∧
    (∀ e, runSetupPhase mj false documents templates .errNotFound (.errOther e) store =
      .error e) ∧
    (∀ e ignoreMissing,
      runSetupPhase mj ignoreMissing documents templates (.errOther e) c store =
        .error e) := by
  refine ⟨rfl, fun ignoreMissing => rfl, fun hc => ?_, fun e => rfl,
    fun e ignoreMissing => rfl⟩
  rcases hc with rfl | rfl <;> rfl

/-- Witness for C7 at concrete server responses: `ignoreMissing`
short-circuits; a creation race (`errExists`) is swallowed with
exactly one create call; a transport error (code 7) propagates. -/
theorem ensure_database_semantics_witness :
    (runSetupPhase (fun _ _ => false) true [("d", Json.null)] [] .errNotFound
        .errExists [] = .ok ⟨true, 0, []⟩) ∧
    (runSetupPhase (fun _ _ => false) false [("d", Json.null)] [] .errNotFound
        .errExists [] =
      .ok ⟨false, 1,
        exactWrites (fun _ _ => false) [] [("d", Json.null)] ++
          templateWrites [] []⟩) ∧
    (runSetupPhase (fun _ _ => false) false [("d", Json.null)] [] .errNotFound
        (.errOther 7) [] = .error 7) :=
  ⟨(ensure_database_semantics (fun _ _ => false) [("d", Json.null)] [] []
      .errExists).1,
   (ensure_database_semantics (fun _ _ => false) [("d", Json.null)] [] []
      .errExists).2.2.1 (Or.inr rfl),
   (ensure_database_semantics (fun _ _ => false) [("d", Json.null)] [] []
      (.errOther 7)).2.2.2.1 7⟩

/-- One invocation of the aggregate disposer runs every collected
cleanup exactly once, in collection order, regardless of prior state. -/
theorem aggregateDisposer_logging (labels : List Nat) (log : List Nat) :
    aggregateDisposer (labels.map loggingCleanup) log = log ++ labels := by
  induction labels generalizing log with
  | nil => simp [aggregateDisposer]
  | cons a as ih =>
    rw [List.map_cons, aggregateDisposer, List.foldl_cons]
    have h := ih (loggingCleanup a log)
    rw [aggregateDisposer] at h
    rw [h, loggingCleanup]
    simp

/-- C2 (amended): each invocation of the aggregate disposer invokes
each collected child disposer exactly once, in collection order; the
aggregate is not idempotent — a second invocation invokes every child
again (instrumented by label-logging cleanups). -/
theorem aggregate_disposer_each_invocation_runs_all :
    (∀ (labels log : List Nat),
      aggregateDisposer (labels.map loggingCleanup) log = log ++ labels) ∧
    (∀ labels : List Nat,
      aggregateDisposer (labels.map loggingCleanup)
          (aggregateDisposer (labels.map loggingCleanup) []) =
        labels ++ labels) := by
  refine ⟨aggregateDisposer_logging, fun labels => ?_⟩
  rw [aggregateDisposer_logging, aggregateDisposer_logging]
  simp

/-- Counterexample to C2 as stated: with one collected cleanup that
logs its invocation, calling the aggregate disposer a second time is
not a no-op — the child runs again. -/
theorem aggregate_disposer_counterexample :
    aggregateDisposer [loggingCleanup 0]
        (aggregateDisposer [loggingCleanup 0] []) ≠
      aggregateDisposer [loggingCleanup 0] [] := by
  decide

/-- C8: the recursive `setupDatabase` call on `_replicator` passes the
replicator-setup option cleared and a setup document without one, so
the replication branch is never active in the inner call and the
recursion depth is exactly one when the outer branch runs, zero
otherwise — for every fuel bound of at least two, i.e. the recursion
terminates at depth one. -/
theorem replication_recursion_depth_one :
    (∀ (docs : List (String × ReplicatorDocument)) (opts : SetupDatabaseOptions),
      replicationActive (innerSetupInfo docs) (innerOpts opts) = false) ∧
    (∀ (fuel : Nat) (info : DatabaseSetup) (opts : SetupDatabaseOptions)
        (user : String),
      setupRecursionDepth (fuel + 2) info opts user =
        cond (replicationActive info opts) 1 0) := by
  constructor
  · intro docs opts
    rfl
  · intro fuel info opts user
    rw [setupRecursionDepth]
    cases hact : replicationActive info opts with
    | false => simp [hact]
    | true =>
      rw [setupRecursionDepth]
      rw [show replicationActive
          (innerSetupInfo (plannerDocsOf info opts user)) (innerOpts opts) =
            false from rfl]
      simp [hact]
